import Mathlib

/-!
Shallow embedding of the HPKV WebSocket client SDK
(`sdk/node/src/websocket/{message-handler,throttling-manager,base-websocket-client}.ts`).

JavaScript numbers that participate only in integer arithmetic are modelled
as `Nat`; rates and wall-clock expressions that involve division
(`1000 / currentRate`, `rate * 0.5`) are modelled as `ℚ`, which matches the
exact algebraic relationships the source expresses (the source computes them
in IEEE doubles; none of the claims depend on rounding of those products).
Promises are modelled by explicit settlement events: a function that in the
source resolves or rejects a stored deferred instead returns the list of
settlement events it fired, in order.
-/

namespace HPKV

/-! ## JavaScript-style primitives -/

/-- JS `x || d` on an optional number: `undefined` and `0` are falsy. -/
def jsOrNat (x : Option Nat) (d : Nat) : Nat :=
  match x with
  | none => d
  | some 0 => d
  | some n => n

/-- JS `x || d` on an optional rational (models an optional JS number). -/
def jsOrQ (x : Option ℚ) (d : ℚ) : ℚ :=
  match x with
  | none => d
  | some q => if q = 0 then d else q

/-- JS `x || d` on an optional string: `undefined` and `''` are falsy. -/
def jsOrStr (x : Option String) (d : String) : String :=
  match x with
  | none => d
  | some "" => d
  | some s => s

/-! ## Error classes (`websocket/errors.ts`)

`HPKVError extends Error` carries an optional `code`; `ConnectionError`,
`TimeoutError` and `AuthenticationError` extend it.  `cancel` in the message
handler rejects with a plain `new Error(reason)`, so the class of the thrown
value is observable; we record it as a `kind` tag. -/

inductive ErrorKind where
  | plainError
  | hpkvError
  | connectionError
  | timeoutError
  | authenticationError
deriving DecidableEq, Repr

structure JsError where
  kind : ErrorKind
  message : String
  code : Option Nat := none
deriving DecidableEq, Repr

/-! ## Wire messages (`websocket/types.ts`) -/

inductive HPKVOperation where
  | GET
  | SET
  | PATCH
  | DELETE
  | RANGE
  | ATOMIC
deriving DecidableEq, Repr

/-- Numeric operation codes (GET=1 … ATOMIC=6). -/
def HPKVOperation.code : HPKVOperation → Nat
  | .GET => 1
  | .SET => 2
  | .PATCH => 3
  | .DELETE => 4
  | .RANGE => 5
  | .ATOMIC => 6

/-- A JS value that may appear in a request `value` field. -/
inductive JsValue where
  | str (s : String)
  | num (q : ℚ)
deriving DecidableEq, Repr

structure HPKVRequestMessage where
  op : HPKVOperation
  key : String
  value : Option JsValue := none
  messageId : Option Nat := none
  endKey : Option String := none
  limit : Option Nat := none
deriving DecidableEq, Repr

/-- Incoming frame, with exactly the fields `MessageHandler.handleMessage`
inspects (`type`, `code`, `message`, `messageId`, `error`).  The remaining
payload fields (`key`, `value`, `records`, …) are never read by the
correlation layer, which resolves the pending promise with the *whole*
message value; they are folded into `payload` so that "resolve with the full
response payload" is faithfully observable. -/
structure HPKVResponse where
  type : Option String := none
  code : Option Nat := none
  message : Option String := none
  messageId : Option Nat := none
  error : Option String := none
  payload : List (String × JsValue) := []
deriving DecidableEq, Repr

/-! ## Pending-request table (`MessageHandler.messageMap`)

A JS `Map<number, PendingRequest>` preserving insertion order, modelled as an
association list.  All client runs keep the keys duplicate-free (correlation
ids are fresh); the well-formedness hypothesis is stated where a theorem
needs it. -/

structure PendingRequest where
  timestamp : Nat
  operation : String
deriving DecidableEq, Repr

abbrev PendingTable := List (Nat × PendingRequest)

def mapGet (t : PendingTable) (k : Nat) : Option PendingRequest :=
  match t.find? (fun p => p.1 = k) with
  | some (_, v) => some v
  | none => none

def mapHas (t : PendingTable) (k : Nat) : Bool :=
  (mapGet t k).isSome

def mapDelete (t : PendingTable) (k : Nat) : PendingTable :=
  t.filter (fun p => p.1 ≠ k)

/-- JS `Map.set`: overwrite in place when present, append otherwise. -/
def mapSet (t : PendingTable) (k : Nat) (v : PendingRequest) : PendingTable :=
  if mapHas t k then t.map (fun p => if p.1 = k then (k, v) else p)
  else t ++ [(k, v)]

/-! ## MessageHandler (`websocket/message-handler.ts`) -/

/-- Default timeout values `DEFAULT_TIMEOUTS` (ms). -/
structure Timeouts where
  CONNECTION : Nat := 30000
  OPERATION : Nat := 10000
  CLEANUP : Nat := 60000
deriving DecidableEq, Repr

def DEFAULT_TIMEOUTS : Timeouts := {}

/-- A callback registered (or intended to be registered) with the handler's
rate-limit side channel.  The only callback the client ever supplies is
`() => this.throttlingManager.notify429()`. -/
inductive RateLimitListener where
  | notify429Listener
deriving DecidableEq, Repr

/-- Observable effects fired by the message handler: a `clearTimeout` on a
pending entry's timer, a promise settlement, or an invocation of a
rate-limit listener. -/
inductive MHEvent where
  | timerCleared (id : Nat)
  | resolved (id : Nat) (msg : HPKVResponse)
  | rejectedWith (id : Nat) (err : JsError)
  | limitListenerInvoked (cb : RateLimitListener)
deriving DecidableEq, Repr

/-- Mutable fields of `MessageHandler`.  `onRateLimitExceededProp` models a
plain JS property written onto the handler object from outside
(`this.messageHandler.onRateLimitExceeded = …` in the client constructor);
no method of `MessageHandler` ever reads it.  The class itself only invokes
the callbacks accumulated in `requestLimitExceededListeners` via
`onRequestLimitExceeded`. -/
structure MessageHandlerState where
  messageId : Nat := 0
  messageMap : PendingTable := []
  timeouts : Timeouts := DEFAULT_TIMEOUTS
  requestLimitExceededListeners : List RateLimitListener := []
  onRateLimitExceededProp : Option RateLimitListener := none
deriving DecidableEq, Repr

/-- Models `onRequestLimitExceeded(listener)`: pushes onto the listener list. -/
def onRequestLimitExceeded (s : MessageHandlerState) (l : RateLimitListener) :
    MessageHandlerState :=
  { s with requestLimitExceededListeners := s.requestLimitExceededListeners ++ [l] }

def MAX_SAFE_INTEGER : Nat := 2 ^ 53 - 1

/-- Models `getNextMessageId()`: resets the counter to 0 when it is within 1000 of
`Number.MAX_SAFE_INTEGER`, then pre-increments and returns it.  Returns
`(returned id, new counter value)`. -/
def getNextMessageId (mid : Nat) : Nat × Nat :=
  let m := if MAX_SAFE_INTEGER - 1000 ≤ mid then 0 else mid
  (m + 1, m + 1)

/-- Models `createMessage(message)`: attaches a fresh correlation id.  Returns the
stamped message and the new handler state. -/
def createMessage (s : MessageHandlerState) (m : HPKVRequestMessage) :
    HPKVRequestMessage × MessageHandlerState :=
  let (id, counter) := getNextMessageId s.messageId
  ({ m with messageId := some id }, { s with messageId := counter })

/-- Models `registerRequest(messageId, operation, timeoutMs?)`: stores a pending
entry stamped with the current time.  (The timeout timer it starts is
modelled by `timerFire` below; the `cancel` closure by `cancelRequest`.) -/
def registerRequest (s : MessageHandlerState) (mid : Nat) (operation : String)
    (now : Nat) : MessageHandlerState :=
  { s with messageMap := mapSet s.messageMap mid { timestamp := now, operation } }

/-- The effective timeout: `timeoutMs || this.timeouts.OPERATION` (the caller
passes `timeoutMs || undefined`, so `0` falls back as well). -/
def actualTimeout (s : MessageHandlerState) (timeoutMs : Option Nat) : Nat :=
  jsOrNat timeoutMs s.timeouts.OPERATION

/-- The per-request timeout timer's callback: guarded by a membership check,
it removes the entry and rejects with a `TimeoutError`. -/
def timerFire (s : MessageHandlerState) (mid : Nat) (timeoutMs : Option Nat)
    (operation : String) : MessageHandlerState × List MHEvent :=
  if mapHas s.messageMap mid then
    ({ s with messageMap := mapDelete s.messageMap mid },
     [.rejectedWith mid
        { kind := .timeoutError,
          message := "Operation timed out after " ++
            toString (actualTimeout s timeoutMs) ++ "ms: " ++ operation }])
  else (s, [])

/-- The `cancel(reason)` closure returned by `registerRequest`: guarded by a
membership check, it clears the timer, removes the entry and rejects with a
plain `new Error(reason)`. -/
def cancelRequest (s : MessageHandlerState) (mid : Nat) (reason : String) :
    MessageHandlerState × List MHEvent :=
  if mapHas s.messageMap mid then
    ({ s with messageMap := mapDelete s.messageMap mid },
     [.timerCleared mid,
      .rejectedWith mid { kind := .plainError, message := reason }])
  else (s, [])

/-- Models `isNotification(message)`: `'type' in message && message.type === 'notification'`. -/
def isNotification (m : HPKVResponse) : Bool :=
  m.type = some "notification"

/-- Models `isErrorResponse(message)`: `('code' in message && message.code !== 200) || 'error' in message`. -/
def isErrorResponse (m : HPKVResponse) : Bool :=
  (match m.code with
   | some c => decide (c ≠ 200)
   | none => false) || m.error.isSome

structure HandleResult where
  handled : Bool
  state : MessageHandlerState
  events : List MHEvent
deriving DecidableEq, Repr

/-- Models `handleMessage(message)`.  Notifications and messages without a (truthy)
`messageId`, or whose id has no pending entry, are not handled.  On a match
the timer is cleared and the entry removed; then the error branch
(`isErrorResponse(message) || (code !== 200 && code !== undefined)`) rejects
with `new HPKVError(isErrorResponse(message) ? message.error :
message.message || 'Unknown error', message.code || 500)`, additionally
notifying the rate-limit listeners first when `code === 429`; otherwise the
promise resolves with the full message. -/
def handleMessage (s : MessageHandlerState) (m : HPKVResponse) : HandleResult :=
  if isNotification m then ⟨false, s, []⟩
  else
    match m.messageId with
    | none => ⟨false, s, []⟩
    | some mid =>
      if mid = 0 then ⟨false, s, []⟩
      else
        match mapGet s.messageMap mid with
        | none => ⟨false, s, []⟩
        | some _ =>
          let s' := { s with messageMap := mapDelete s.messageMap mid }
          if isErrorResponse m ||
              (match m.code with
               | some c => decide (c ≠ 200)
               | none => false) then
            let notifs :=
              if m.code = some 429 then
                s.requestLimitExceededListeners.map MHEvent.limitListenerInvoked
              else []
            let errMsg :=
              if isErrorResponse m then (m.error.getD "")
              else jsOrStr m.message "Unknown error"
            ⟨true, s',
             [MHEvent.timerCleared mid] ++ notifs ++
               [.rejectedWith mid
                  { kind := .hpkvError, message := errMsg,
                    code := some (jsOrNat m.code 500) }]⟩
          else
            ⟨true, s', [.timerCleared mid, .resolved mid m]⟩

/-- Models `cancelAllRequests(error)`: iterates the table, clears every timer,
rejects every deferred with the given error, and empties the table. -/
def cancelAllRequests (s : MessageHandlerState) (err : JsError) :
    MessageHandlerState × List MHEvent :=
  ({ s with messageMap := [] },
   s.messageMap.flatMap (fun p => [.timerCleared p.1, .rejectedWith p.1 err]))

/-- Whether an entry is stale at time `now`: `age > 3 * timeouts.OPERATION`. -/
def isStale (s : MessageHandlerState) (now : Nat) (p : Nat × PendingRequest) : Bool :=
  decide (s.timeouts.OPERATION * 3 < now - p.2.timestamp)

/-- Models `cleanupStaleRequests()` (the periodic sweep): removes and rejects, with
a `TimeoutError`, every entry whose age exceeds 3× the operation timeout. -/
def cleanupStaleRequests (s : MessageHandlerState) (now : Nat) :
    MessageHandlerState × List MHEvent :=
  ({ s with messageMap := s.messageMap.filter (fun p => ¬ isStale s now p) },
   (s.messageMap.filter (isStale s now)).flatMap
     (fun p =>
       [.timerCleared p.1,
        .rejectedWith p.1
          { kind := .timeoutError,
            message := "Request " ++ toString p.1 ++ " (" ++ p.2.operation ++
              ") timed out after " ++ toString (now - p.2.timestamp) ++ "ms" }]))

/-! ## ThrottlingManager (`websocket/throttling-manager.ts`)

`Date.now()` is passed in explicitly as `now`.  Wall-clock quantities are
`ℚ` because `nextAvailableSlotTime` accumulates `1000 / currentRate`. -/

structure ThrottlingConfig where
  enabled : Bool
  rateLimit : Option ℚ := none
deriving DecidableEq, Repr

/-- Models `Partial<ThrottlingConfig>`: each property may be absent. -/
structure PartialThrottlingConfig where
  enabled : Option Bool := none
  rateLimit : Option (Option ℚ) := none
deriving DecidableEq, Repr

def DEFAULT_THROTTLING : ThrottlingConfig := { enabled := true, rateLimit := some 10 }

/-- JS object spread `{...base, ...p}`: a property present in `p` overrides. -/
def mergeThrottlingConfig (base : ThrottlingConfig) (p : PartialThrottlingConfig) :
    ThrottlingConfig :=
  { enabled := p.enabled.getD base.enabled,
    rateLimit :=
      match p.rateLimit with
      | none => base.rateLimit
      | some v => v }

structure ThrottlingManagerState where
  currentRate : ℚ
  throttleQueueLen : Nat := 0
  processingQueue : Bool := false
  nextAvailableSlotTime : ℚ := 0
  backoffUntil : ℚ := 0
  backoffExponent : Nat := 0
  throttlingConfig : ThrottlingConfig
deriving DecidableEq, Repr

/-- The `ThrottlingManager` constructor: merge the partial config over the
defaults, then `currentRate = rateLimit || DEFAULT_THROTTLING.rateLimit`. -/
def mkThrottlingManager (config : Option PartialThrottlingConfig) :
    ThrottlingManagerState :=
  let cfg := mergeThrottlingConfig DEFAULT_THROTTLING (config.getD {})
  { currentRate := jsOrQ cfg.rateLimit 10, throttlingConfig := cfg }

/-- Models `updateConfig(config)`: spread-merge, recompute `currentRate` from the
merged `rateLimit` (default 10), and when the update turns throttling off,
flush (grant) every queued caller.  Returns the new state and the number of
queued callers granted. -/
def updateConfig (s : ThrottlingManagerState) (p : PartialThrottlingConfig) :
    ThrottlingManagerState × Nat :=
  let wasEnabled := s.throttlingConfig.enabled
  let cfg := mergeThrottlingConfig s.throttlingConfig p
  let s' := { s with throttlingConfig := cfg, currentRate := jsOrQ cfg.rateLimit 10 }
  if wasEnabled ∧ ¬ cfg.enabled then
    ({ s' with throttleQueueLen := 0 }, s'.throttleQueueLen)
  else (s', 0)

/-- Models `notify429()`: a no-op inside an active backoff window; otherwise halves
the rate (floored at 10% of the configured limit), opens a backoff window of
`1000 * min(60, 2^backoffExponent)` ms and increments the exponent. -/
def notify429 (s : ThrottlingManagerState) (now : ℚ) : ThrottlingManagerState :=
  if now < s.backoffUntil then s
  else
    { s with
      currentRate :=
        max (jsOrQ s.throttlingConfig.rateLimit 10 * (1 / 10))
          (s.currentRate * (1 / 2)),
      backoffUntil := now + 1000 * min 60 ((2 : ℚ) ^ s.backoffExponent),
      backoffExponent := s.backoffExponent + 1 }

/-- Models `throttleRequest()`: resolves immediately when throttling is disabled or
the earliest admissible run time is not in the future (advancing the next
slot by `1000/currentRate`); otherwise the caller is enqueued.  The boolean
reports whether the returned promise resolved immediately. -/
def throttleRequest (s : ThrottlingManagerState) (now : ℚ) :
    ThrottlingManagerState × Bool :=
  if ¬ s.throttlingConfig.enabled then (s, true)
  else
    let minTimeBetweenRequests := 1000 / s.currentRate
    let earliestRunTime := max now (max s.nextAvailableSlotTime s.backoffUntil)
    if earliestRunTime ≤ now then
      ({ s with nextAvailableSlotTime := now + minTimeBetweenRequests }, true)
    else
      ({ s with throttleQueueLen := s.throttleQueueLen + 1, processingQueue := true },
       false)

/-! ## BaseWebSocketClient (`websocket/base-websocket-client.ts`)

The socket adapter is represented by its observable `readyState`
(`ws = none` models `this.ws === null`).  `socketsCreated` counts calls to
`createWebSocket`, so "does not open a second socket" is stated directly.
Promise identities (`connectionPromise`) are numbers drawn from
`nextPromiseId`. -/

inductive ConnectionState where
  | DISCONNECTED
  | CONNECTING
  | CONNECTED
  | DISCONNECTING
  | RECONNECTING
deriving DecidableEq, Repr

def WS_CONNECTING : Nat := 0
def WS_OPEN : Nat := 1
def WS_CLOSING : Nat := 2
def WS_CLOSED : Nat := 3

structure RetryConfig where
  maxReconnectAttempts : Nat := 3
  initialDelayBetweenReconnects : Nat := 1000
  maxDelayBetweenReconnects : Nat := 30000
  jitterMs : Nat := 500
deriving DecidableEq, Repr

structure ClientState where
  ws : Option Nat := none
  connectionState : ConnectionState := .DISCONNECTED
  connectionPromise : Option Nat := none
  reconnectAttempts : Nat := 0
  isGracefulDisconnect : Bool := false
  retry : RetryConfig := {}
  messageHandler : MessageHandlerState := {}
  throttling : ThrottlingManagerState
  socketsCreated : Nat := 0
  nextPromiseId : Nat := 0
deriving DecidableEq, Repr

/-- The `BaseWebSocketClient` constructor, restricted to the fields the
claims observe.  It wires the 429 side channel by *assigning a property*
`this.messageHandler.onRateLimitExceeded = () => throttlingManager.notify429()`
— it never calls `onRequestLimitExceeded`, so the handler's listener list
stays empty. -/
def mkClient (config : Option PartialThrottlingConfig := none)
    (retry : RetryConfig := {}) : ClientState :=
  { retry,
    messageHandler := { onRateLimitExceededProp := some .notify429Listener },
    throttling := mkThrottlingManager config }

/-- Models `isWebSocketOpen()`: `this.ws !== null && this.ws.readyState === OPEN`. -/
def isWebSocketOpen (s : ClientState) : Bool :=
  s.ws = some WS_OPEN

/-- Models `syncConnectionState()`: recompute the logical state from the adapter's
`readyState` (the adapter is the source of truth); a missing socket means
`DISCONNECTED`. -/
def syncConnectionState (s : ClientState) : ClientState :=
  match s.ws with
  | none => { s with connectionState := .DISCONNECTED }
  | some r =>
    if r = WS_CONNECTING then { s with connectionState := .CONNECTING }
    else if r = WS_OPEN then { s with connectionState := .CONNECTED }
    else if r = WS_CLOSING then { s with connectionState := .DISCONNECTING }
    else if r = WS_CLOSED then { s with connectionState := .DISCONNECTED }
    else s

inductive ConnectResult where
  /-- Already connected with an open socket: resolve at once. -/
  | alreadyConnected
  /-- An attempt is in flight: return its pending promise. -/
  | joinedExisting (pid : Nat)
  /-- A fresh attempt was started (socket constructed, promise created). -/
  | newAttempt (pid : Nat)
  /-- Case where `createWebSocket` threw: the fresh promise rejects with a `ConnectionError`. -/
  | createFailed (pid : Nat)
deriving DecidableEq, Repr

/-- Models `connect()` up to the synchronous completion of
`_initiateConnectionAttempt` (`createOk` says whether `createWebSocket`
succeeds; a new socket starts in readyState CONNECTING). -/
def connect (s : ClientState) (createOk : Bool) : ClientState × ConnectResult :=
  let s := syncConnectionState { s with isGracefulDisconnect := false }
  if s.connectionState = .CONNECTED ∧ isWebSocketOpen s then (s, .alreadyConnected)
  else if (s.connectionState = .CONNECTING ∨ s.connectionState = .RECONNECTING) ∧
      s.connectionPromise.isSome then
    (s, .joinedExisting (s.connectionPromise.getD 0))
  else
    let pid := s.nextPromiseId
    let s := { s with
      connectionState := .CONNECTING, connectionPromise := some pid,
      nextPromiseId := pid + 1 }
    if createOk then
      ({ s with ws := some WS_CONNECTING, socketsCreated := s.socketsCreated + 1 },
       .newAttempt pid)
    else
      ({ s with connectionState := .DISCONNECTED }, .createFailed pid)

/-- Events observable while `disconnect()` runs, in order: effects fired by
the message handler, then the resolution of the disconnect promise. -/
inductive DiscEvent where
  | handlerEvent (e : MHEvent)
  | promiseResolved
deriving DecidableEq, Repr

/-- The error `disconnect()` hands to `cancelAllRequests`. -/
def connectionClosedByClient : JsError :=
  { kind := .connectionError, message := "Connection closed by client" }

/-- Models `disconnect(cancelPendingRequests = true)`.  When already fully
disconnected (`state === DISCONNECTED && !this.ws`) it resolves immediately;
otherwise it optionally bulk-cancels the pending table and then runs
`cleanup` (modelled to completion: the close handshake or its 200ms fallback
always finishes), after which the `finally` block restores the flags. -/
def disconnect (s : ClientState) (cancelPendingRequests : Bool := true) :
    ClientState × List DiscEvent :=
  let s := syncConnectionState
    { s with isGracefulDisconnect := true, reconnectAttempts := 0 }
  if s.connectionState = .DISCONNECTED ∧ s.ws = none then
    ({ s with isGracefulDisconnect := false }, [.promiseResolved])
  else
    let s := { s with connectionState := .DISCONNECTING }
    let (mh, evs) :=
      if cancelPendingRequests then
        cancelAllRequests s.messageHandler connectionClosedByClient
      else (s.messageHandler, [])
    let s := { s with
      messageHandler := mh, ws := none, connectionState := .DISCONNECTED,
      connectionPromise := none, isGracefulDisconnect := false }
    (s, evs.map DiscEvent.handlerEvent ++ [.promiseResolved])

/-- Outcome of `sendMessage` as observed by the caller's promise. -/
inductive SendOutcome where
  /-- Frame handed to `ws.send`; the registration is pending. -/
  | sent (mid : Nat)
  /-- The registration was cancelled synchronously: the promise is already
  rejected with this error. -/
  | rejectedNow (err : JsError)
  /-- Still awaiting a throttling slot (the queued deferred has not resolved). -/
  | queuedByThrottle
deriving DecidableEq, Repr

/-- Models `sendMessage(message, timeoutMs?)`: await a throttle slot, sync state,
stamp a correlation id, register the request, then either send (socket open)
or cancel the registration with reason `'WebSocket is not open'`. -/
def sendMessage (s : ClientState) (m : HPKVRequestMessage) (now : Nat) :
    ClientState × SendOutcome :=
  let (th, granted) := throttleRequest s.throttling (now : ℚ)
  let s := { s with throttling := th }
  if ¬ granted then (s, .queuedByThrottle)
  else
    let s := syncConnectionState s
    let (stamped, mh) := createMessage s.messageHandler m
    let mid := stamped.messageId.getD 0
    let mh := registerRequest mh mid (toString m.op.code) now
    let s := { s with messageHandler := mh }
    if s.ws.isSome ∧ isWebSocketOpen s then (s, .sent mid)
    else
      let (mh', _evs) := cancelRequest s.messageHandler mid "WebSocket is not open"
      ({ s with messageHandler := mh' },
       .rejectedNow { kind := .plainError, message := "WebSocket is not open" })

/-- Models `get(key)` delegates to `sendMessage` with op GET. -/
def clientGet (s : ClientState) (key : String) (now : Nat) :
    ClientState × SendOutcome :=
  sendMessage s { op := .GET, key } now

/-- Models `delete(key)` delegates to `sendMessage` with op DELETE. -/
def clientDelete (s : ClientState) (key : String) (now : Nat) :
    ClientState × SendOutcome :=
  sendMessage s { op := .DELETE, key } now

/-- Models `set(key, value, partialUpdate)`: stringifies non-string values and picks
SET or PATCH. -/
def clientSet (s : ClientState) (key : String) (value : JsValue)
    (partialUpdate : Bool) (now : Nat) : ClientState × SendOutcome :=
  let stringValue :=
    match value with
    | .str v => v
    | .num q => toString q
  let operation := if partialUpdate then HPKVOperation.PATCH else HPKVOperation.SET
  sendMessage s { op := operation, key, value := some (.str stringValue) } now

/-- Models `range(key, endKey, options?)` delegates with op RANGE. -/
def clientRange (s : ClientState) (key endKey : String) (limit : Option Nat)
    (now : Nat) : ClientState × SendOutcome :=
  sendMessage s { op := .RANGE, key, endKey := some endKey, limit } now

/-- Models `atomicIncrement(key, value)` delegates with op ATOMIC. -/
def clientAtomicIncrement (s : ClientState) (key : String) (value : ℚ)
    (now : Nat) : ClientState × SendOutcome :=
  sendMessage s { op := .ATOMIC, key, value := some (.num value) } now

/-- The base reconnection delay computed in `reconnect()` for a given
attempt number: `min(initialDelay * 2^(attempts-1), maxDelay)`. -/
def reconnectBaseDelay (retry : RetryConfig) (attempt : Nat) : Nat :=
  min (retry.initialDelayBetweenReconnects * 2 ^ (attempt - 1))
    retry.maxDelayBetweenReconnects

/-- The jitter term `this.retry.jitterMs ? Math.floor(Math.random() * jitterMs) : 0`
for a draw `rand ∈ [0, 1)`. -/
def reconnectJitter (retry : RetryConfig) (rand : ℚ) : Nat :=
  if retry.jitterMs ≠ 0 then ⌊rand * (retry.jitterMs : ℚ)⌋₊ else 0

/-- The full delay `reconnect()` waits before retrying. -/
def reconnectDelay (retry : RetryConfig) (attempt : Nat) (rand : ℚ) : Nat :=
  reconnectBaseDelay retry attempt + reconnectJitter retry rand

/-! ## Settlement traces

The five code paths that can settle a registered request, as events applied
to one `MessageHandlerState`.  (Re-registering an id is a *new* registration
and is deliberately not an event here: the at-most-once property is per
registration.) -/

inductive SettleEvent where
  | response (m : HPKVResponse)
  | timer (mid : Nat) (timeoutMs : Option Nat) (operation : String)
  | cancelEv (mid : Nat) (reason : String)
  | cancelAll (err : JsError)
  | sweep (now : Nat)
deriving DecidableEq, Repr

/-- Ids of the promise settlements among a list of handler events. -/
def settledIds (evs : List MHEvent) : List Nat :=
  evs.filterMap fun e =>
    match e with
    | .resolved i _ => some i
    | .rejectedWith i _ => some i
    | _ => none

/-- One settlement-path step. -/
def settleStep (s : MessageHandlerState) (ev : SettleEvent) :
    MessageHandlerState × List MHEvent :=
  match ev with
  | .response m => let r := handleMessage s m; (r.state, r.events)
  | .timer mid timeoutMs operation => timerFire s mid timeoutMs operation
  | .cancelEv mid reason => cancelRequest s mid reason
  | .cancelAll err => cancelAllRequests s err
  | .sweep now => cleanupStaleRequests s now

/-- Run a list of settlement-path events, concatenating the fired events. -/
def settleRun (s : MessageHandlerState) : List SettleEvent →
    MessageHandlerState × List MHEvent
  | [] => (s, [])
  | ev :: rest =>
    let (s', evs) := settleStep s ev
    let (s'', evs') := settleRun s' rest
    (s'', evs ++ evs')

/-- The ids returned by `n` successive `getNextMessageId()` calls starting
from counter value `c`. -/
def idsFrom (c : Nat) : Nat → List Nat
  | 0 => []
  | n + 1 =>
    let (id, c') := getNextMessageId c
    id :: idsFrom c' n

/-- Client-side effect of one handler event: an invocation of the
rate-limit listener runs `throttlingManager.notify429()`; settlements and
timer clears do not touch the client's throttling state. -/
def applyMHEvent (s : ClientState) (now : ℚ) : MHEvent → ClientState
  | .limitListenerInvoked .notify429Listener =>
    { s with throttling := notify429 s.throttling now }
  | _ => s

/-- Receipt of one frame by the client: `this.messageHandler.handleMessage`
plus the side effects of every listener the handler invoked. -/
def clientHandleMessage (s : ClientState) (m : HPKVResponse) (now : ℚ) :
    ClientState × HandleResult :=
  let r := handleMessage s.messageHandler m
  let s := { s with messageHandler := r.state }
  (r.events.foldl (fun acc e => applyMHEvent acc now e) s, r)

/-! ## Helper lemmas -/

theorem syncConnectionState_shape (s : ClientState) :
    ∃ c, syncConnectionState s = { s with connectionState := c } := by
  unfold syncConnectionState
  rcases h : s.ws with - | r
  · simp only [h]
    exact ⟨_, rfl⟩
  · simp only [h]
    split_ifs <;>
      first
        | exact ⟨_, rfl⟩
        | exact ⟨s.connectionState, by rw [← h]⟩

theorem syncConnectionState_ws (s : ClientState) : (syncConnectionState s).ws = s.ws := by
  obtain ⟨c, hc⟩ := syncConnectionState_shape s
  rw [hc]

theorem syncConnectionState_connectionPromise (s : ClientState) :
    (syncConnectionState s).connectionPromise = s.connectionPromise := by
  obtain ⟨c, hc⟩ := syncConnectionState_shape s
  rw [hc]

theorem syncConnectionState_socketsCreated (s : ClientState) :
    (syncConnectionState s).socketsCreated = s.socketsCreated := by
  obtain ⟨c, hc⟩ := syncConnectionState_shape s
  rw [hc]

theorem syncConnectionState_messageHandler (s : ClientState) :
    (syncConnectionState s).messageHandler = s.messageHandler := by
  obtain ⟨c, hc⟩ := syncConnectionState_shape s
  rw [hc]

theorem syncConnectionState_throttling (s : ClientState) :
    (syncConnectionState s).throttling = s.throttling := by
  obtain ⟨c, hc⟩ := syncConnectionState_shape s
  rw [hc]

theorem mapHas_eq_find_isSome (t : PendingTable) (k : Nat) :
    mapHas t k = (t.find? (fun p => p.1 = k)).isSome := by
  unfold mapHas mapGet
  rcases h : List.find? (fun p => p.1 = k) t with - | ⟨a, v⟩ <;> rw [h] <;> rfl

theorem mapHas_iff_mem_keys (t : PendingTable) (k : Nat) :
    mapHas t k = true ↔ k ∈ t.map Prod.fst := by
  rw [mapHas_eq_find_isSome, List.find?_isSome]
  simp [List.mem_map]

theorem mapHas_false_iff (t : PendingTable) (k : Nat) :
    mapHas t k = false ↔ ∀ p ∈ t, p.1 ≠ k := by
  rw [← Bool.not_eq_true, mapHas_iff_mem_keys]
  simp only [List.mem_map, not_exists]
  constructor
  · intro h p hp he
    exact h p ⟨hp, he⟩
  · rintro h p ⟨hp, he⟩
    exact h p hp he

theorem mem_keys_of_mapHas {t : PendingTable} {k : Nat} (h : mapHas t k = true) :
    k ∈ t.map Prod.fst :=
  (mapHas_iff_mem_keys t k).1 h

theorem mapHas_of_mem {t : PendingTable} {k : Nat} {v : PendingRequest}
    (h : (k, v) ∈ t) : mapHas t k = true :=
  (mapHas_iff_mem_keys t k).2 (List.mem_map_of_mem Prod.fst h)

theorem mem_keys_mapDelete {t : PendingTable} {k i : Nat}
    (h : i ∈ (mapDelete t k).map Prod.fst) :
    i ∈ t.map Prod.fst ∧ i ≠ k := by
  unfold mapDelete at h
  simp only [List.mem_map, List.mem_filter] at h
  obtain ⟨p, ⟨hp, hne⟩, hi⟩ := h
  subst hi
  exact ⟨List.mem_map_of_mem Prod.fst hp, by simpa using hne⟩

theorem nodup_keys_mapDelete {t : PendingTable} (k : Nat)
    (h : (t.map Prod.fst).Nodup) : ((mapDelete t k).map Prod.fst).Nodup :=
  ((List.filter_sublist t).map Prod.fst).nodup h

theorem mapDelete_append_singleton (t : PendingTable) (k : Nat) (v : PendingRequest)
    (h : mapHas t k = false) : mapDelete (t ++ [(k, v)]) k = t := by
  unfold mapDelete
  rw [List.filter_append]
  have h1 : t.filter (fun p => p.1 ≠ k) = t := by
    rw [List.filter_eq_self]
    intro p hp
    simpa using (mapHas_false_iff t k).1 h p hp
  have h2 : ([((k : Nat), v)] : PendingTable).filter (fun p => p.1 ≠ k) = [] := by
    simp
  rw [h1, h2, List.append_nil]

theorem mapHas_append_singleton (t : PendingTable) (k : Nat) (v : PendingRequest) :
    mapHas (t ++ [(k, v)]) k = true :=
  (mapHas_iff_mem_keys _ k).2 (by simp)

theorem settledIds_append (a b : List MHEvent) :
    settledIds (a ++ b) = settledIds a ++ settledIds b :=
  List.filterMap_append a b _

theorem settledIds_limitList (l : List RateLimitListener) :
    settledIds (l.map MHEvent.limitListenerInvoked) = [] := by
  unfold settledIds
  rw [List.filterMap_map, List.filterMap_eq_nil_iff]
  intro a _
  rfl

theorem settledIds_cancelList (t : PendingTable) (err : JsError) :
    settledIds (t.flatMap fun p => [.timerCleared p.1, .rejectedWith p.1 err]) =
      t.map Prod.fst := by
  induction t with
  | nil => rfl
  | cons p rest ih =>
    simp only [List.flatMap_cons, List.map_cons]
    rw [settledIds_append, ih]
    rfl

/-- Concrete evaluation: a manager built with no configuration. -/
theorem mkThrottlingManager_none_eq :
    mkThrottlingManager none =
      { currentRate := 10, throttlingConfig := DEFAULT_THROTTLING } := by
  simp [mkThrottlingManager, mergeThrottlingConfig, DEFAULT_THROTTLING, jsOrQ]

/-- Concrete evaluation: the first `notify429` on a fresh manager at t=0. -/
theorem notify429_mk_eq :
    notify429 (mkThrottlingManager none) 0 =
      { currentRate := 5, backoffUntil := 1000, backoffExponent := 1,
        throttlingConfig := DEFAULT_THROTTLING } := by
  rw [mkThrottlingManager_none_eq]
  unfold notify429
  rw [if_neg (by norm_num)]
  simp only [ThrottlingManagerState.mk.injEq, DEFAULT_THROTTLING, jsOrQ]
  norm_num

/-! ## C5 — notify429 backoff -/

/-- C5: a `notify429()` outside an active backoff window sets the allowed
rate to `max(configured ceiling × 0.1, previous rate × 0.5)`, opens a
backoff window of length `min(60s, 2^attempt × 1s)` and increments the
exponent; a `notify429()` during an active window changes nothing. -/
theorem notify429_spec (s : ThrottlingManagerState) (now : ℚ) :
    (s.backoffUntil ≤ now →
      (notify429 s now).currentRate =
        max (jsOrQ s.throttlingConfig.rateLimit 10 * (1 / 10))
          (s.currentRate * (1 / 2)) ∧
      (notify429 s now).backoffUntil - now =
        min 60000 ((2 : ℚ) ^ s.backoffExponent * 1000) ∧
      (notify429 s now).backoffExponent = s.backoffExponent + 1) ∧
    (now < s.backoffUntil → notify429 s now = s) := by
  constructor
  · intro hle
    have hnot : ¬ now < s.backoffUntil := not_lt.mpr hle
    unfold notify429
    rw [if_neg hnot]
    refine ⟨rfl, ?_, rfl⟩
    have hmul : (1000 : ℚ) * min 60 ((2 : ℚ) ^ s.backoffExponent) =
        min 60000 ((2 : ℚ) ^ s.backoffExponent * 1000) := by
      rw [mul_min_of_nonneg _ _ (by norm_num : (0 : ℚ) ≤ 1000)]
      rw [mul_comm (1000 : ℚ) ((2 : ℚ) ^ s.backoffExponent)]
      norm_num
    simp only [hmul]
    ring
  · intro hlt
    unfold notify429
    rw [if_pos hlt]

/-- Witness for C5 at a concrete state: fresh manager, `notify429` at t=0
halves the rate to 5 and opens a 1s window; a second call at t=500 (inside
the window) changes nothing. -/
theorem notify429_spec_witness :
    ((0 : ℚ) ≤ (0 : ℚ) ∧
      (notify429 (mkThrottlingManager none) 0).currentRate = 5 ∧
      (notify429 (mkThrottlingManager none) 0).backoffUntil = 1000 ∧
      (notify429 (mkThrottlingManager none) 0).backoffExponent = 1) ∧
    ((500 : ℚ) < 1000 ∧
      notify429 (notify429 (mkThrottlingManager none) 0) 500 =
        notify429 (mkThrottlingManager none) 0) := by
  constructor
  · refine ⟨le_refl 0, ?_, ?_, ?_⟩ <;> rw [notify429_mk_eq]
  · refine ⟨by norm_num, ?_⟩
    refine (notify429_spec (notify429 (mkThrottlingManager none) 0) 500).2 ?_
    rw [notify429_mk_eq]
    norm_num

/-! ## C10 — updateConfig resets the rate -/

/-- C10: every `updateConfig(partial)` call resets `currentRate` to the
merged configuration's `rateLimit` (default 10 when absent or zero) — even
when the partial update does not mention `rateLimit`, which discards any
429-induced reduction — while `backoffUntil` and `backoffExponent` are left
unchanged. -/
theorem updateConfig_resets_rate (s : ThrottlingManagerState)
    (p : PartialThrottlingConfig) :
    ((updateConfig s p).1.currentRate =
      jsOrQ (mergeThrottlingConfig s.throttlingConfig p).rateLimit 10) ∧
    (p.rateLimit = none →
      (updateConfig s p).1.currentRate = jsOrQ s.throttlingConfig.rateLimit 10) ∧
    ((updateConfig s p).1.backoffUntil = s.backoffUntil) ∧
    ((updateConfig s p).1.backoffExponent = s.backoffExponent) := by
  refine ⟨?_, ?_, ?_, ?_⟩
  · simp only [updateConfig]
    split_ifs <;> rfl
  · intro hnone
    simp only [updateConfig]
    split_ifs <;> simp [mergeThrottlingConfig, hnone]
  · simp only [updateConfig]
    split_ifs <;> rfl
  · simp only [updateConfig]
    split_ifs <;> rfl

/-- Witness for C10: after a 429 halves the rate to 5, an `updateConfig({})`
that does not mention `rateLimit` restores the rate to 10, with the backoff
window (until t=1000) and exponent (1) untouched. -/
theorem updateConfig_resets_rate_witness :
    (PartialThrottlingConfig.rateLimit {} = none) ∧
    ((updateConfig (notify429 (mkThrottlingManager none) 0) {}).1.currentRate = 10 ∧
      (updateConfig (notify429 (mkThrottlingManager none) 0) {}).1.backoffUntil = 1000 ∧
      (updateConfig (notify429 (mkThrottlingManager none) 0) {}).1.backoffExponent = 1) := by
  refine ⟨rfl, ?_, ?_, ?_⟩
  · have h := (updateConfig_resets_rate (notify429 (mkThrottlingManager none) 0) {}).2.1 rfl
    rw [h, notify429_mk_eq]
    simp [DEFAULT_THROTTLING, jsOrQ]
  · rw [(updateConfig_resets_rate (notify429 (mkThrottlingManager none) 0) {}).2.2.1,
      notify429_mk_eq]
  · rw [(updateConfig_resets_rate (notify429 (mkThrottlingManager none) 0) {}).2.2.2,
      notify429_mk_eq]

/-! ## C6 — reconnection backoff -/

/-- C6: for attempts `k ≥ 1` the base delay equals
`min(initialDelay * 2^(k-1), maxDelay)`; jitter lies in `[0, jitterMs)`;
the base delay is non-decreasing in the attempt number and never exceeds
`maxDelay`. -/
theorem reconnect_backoff_spec (retry : RetryConfig) (k k' : Nat) (r : ℚ)
    (hk : 1 ≤ k) (hkk : k ≤ k') (hr0 : 0 ≤ r) (hr1 : r < 1)
    (hj : 0 < retry.jitterMs) :
    reconnectDelay retry k r =
      min (retry.initialDelayBetweenReconnects * 2 ^ (k - 1))
        retry.maxDelayBetweenReconnects + reconnectJitter retry r ∧
    reconnectJitter retry r < retry.jitterMs ∧
    reconnectBaseDelay retry k ≤ reconnectBaseDelay retry k' ∧
    reconnectBaseDelay retry k ≤ retry.maxDelayBetweenReconnects := by
  refine ⟨rfl, ?_, ?_, ?_⟩
  · unfold reconnectJitter
    rw [if_pos (Nat.pos_iff_ne_zero.mp hj)]
    have hnn : (0 : ℚ) ≤ r * (retry.jitterMs : ℚ) :=
      mul_nonneg hr0 (by positivity)
    rw [Nat.floor_lt hnn]
    exact mul_lt_of_lt_one_left (by exact_mod_cast hj) hr1
  · unfold reconnectBaseDelay
    exact min_le_min
      (Nat.mul_le_mul_left _ (Nat.pow_le_pow_right (by norm_num) (by omega)))
      le_rfl
  · exact min_le_right _ _

/-- Witness for C6 with the constructor's fixed configuration
(initialDelay 1000, maxDelay 30000, jitter bound 500): attempts 3 ≤ 6,
draw r = 999/1000. -/
theorem reconnect_backoff_spec_witness :
    (1 ≤ 3 ∧ 3 ≤ 6 ∧ (0 : ℚ) ≤ 999 / 1000 ∧ (999 : ℚ) / 1000 < 1 ∧
      0 < RetryConfig.jitterMs {}) ∧
    (reconnectDelay {} 3 (999 / 1000) = min (1000 * 2 ^ 2) 30000 + 499 ∧
      reconnectJitter {} (999 / 1000) < 500 ∧
      reconnectBaseDelay {} 3 ≤ reconnectBaseDelay {} 6 ∧
      reconnectBaseDelay {} 3 ≤ 30000) := by
  have h := reconnect_backoff_spec {} 3 6 (999 / 1000)
    (by norm_num) (by norm_num) (by norm_num) (by norm_num) (by norm_num)
  refine ⟨⟨by norm_num, by norm_num, by norm_num, by norm_num, by norm_num⟩,
    ?_, h.2.1, h.2.2.1, h.2.2.2⟩
  rw [h.1]
  norm_num [reconnectJitter]
  have hf : ⌊(999 : ℚ) / 2⌋₊ = 499 := by
    rw [show (2 : ℚ) = ((2 : ℕ) : ℚ) by norm_num, Nat.floor_div_nat]
    norm_num
  rw [hf]

/-! ## C3 — connect is single-flight -/

/-- C3: when the (resynced) state is `CONNECTING` or `RECONNECTING` and a
connection promise is stored — in particular whenever a connection attempt
is in flight — a further `connect()` returns that same pending promise,
changes nothing, and constructs no second socket. -/
theorem connect_single_flight (s : ClientState) (p : Nat) (createOk : Bool)
    (hstate :
      (syncConnectionState { s with isGracefulDisconnect := false }).connectionState =
          ConnectionState.CONNECTING ∨
        (syncConnectionState { s with isGracefulDisconnect := false }).connectionState =
          ConnectionState.RECONNECTING)
    (hp : s.connectionPromise = some p) :
    connect s createOk =
      (syncConnectionState { s with isGracefulDisconnect := false },
        ConnectResult.joinedExisting p) ∧
    (connect s createOk).1.socketsCreated = s.socketsCreated ∧
    (connect s createOk).1.ws = s.ws ∧
    (connect s createOk).1.connectionPromise = some p := by
  have hp' : (syncConnectionState
      { s with isGracefulDisconnect := false }).connectionPromise = some p := by
    rw [syncConnectionState_connectionPromise]
    exact hp
  have hmain : connect s createOk =
      (syncConnectionState { s with isGracefulDisconnect := false },
        ConnectResult.joinedExisting p) := by
    unfold connect
    rw [if_neg, if_pos ⟨hstate, by rw [hp']; rfl⟩]
    · rw [hp']
      rfl
    · rintro ⟨hconn, -⟩
      rcases hstate with h | h <;> rw [hconn] at h <;> cases h
  refine ⟨hmain, ?_, ?_, ?_⟩ <;> rw [hmain]
  · exact syncConnectionState_socketsCreated _
  · exact syncConnectionState_ws _
  · exact hp'

/-- Witness for C3: a client whose socket is mid-handshake
(readyState CONNECTING) with stored promise 7; `connect()` joins it. -/
theorem connect_single_flight_witness :
    ((syncConnectionState
        { ws := some 0, connectionPromise := some 7,
          throttling := mkThrottlingManager none,
          isGracefulDisconnect := false }).connectionState =
      ConnectionState.CONNECTING) ∧
    (connect
        { ws := some 0, connectionPromise := some 7,
          throttling := mkThrottlingManager none } true).2 =
      ConnectResult.joinedExisting 7 ∧
    (connect
        { ws := some 0, connectionPromise := some 7,
          throttling := mkThrottlingManager none } true).1.socketsCreated = 0 := by
  have h := connect_single_flight
    { ws := some 0, connectionPromise := some 7,
      throttling := mkThrottlingManager none } 7 true (Or.inl (by rfl)) rfl
  exact ⟨by rfl, by rw [h.1], h.2.1⟩

/-! ## C2 — operations on a closed socket -/

theorem isWebSocketOpen_sync (s : ClientState) :
    isWebSocketOpen (syncConnectionState s) = isWebSocketOpen s := by
  unfold isWebSocketOpen
  rw [syncConnectionState_ws]

theorem mapSet_of_not_has {t : PendingTable} {k : Nat} {v : PendingRequest}
    (h : mapHas t k = false) : mapSet t k v = t ++ [(k, v)] := by
  unfold mapSet
  rw [h]
  rfl

/-- Evaluation of `throttleRequest` on a freshly constructed manager: the
slot is granted immediately and the next slot moves 100ms out. -/
theorem throttleRequest_mk_eval :
    throttleRequest (mkThrottlingManager none) 0 =
      ({ mkThrottlingManager none with nextAvailableSlotTime := 100 }, true) := by
  rw [mkThrottlingManager_none_eq]
  unfold throttleRequest
  rw [if_neg (by simp [DEFAULT_THROTTLING])]
  rw [if_pos (by norm_num)]
  simp only [Prod.mk.injEq, ThrottlingManagerState.mk.injEq]
  norm_num

/-- C2 (amended): a public operation performed while the socket is not open
— given an immediately granted throttle slot and a fresh correlation id —
has its registration cancelled synchronously: the promise rejects at once
with a plain `Error('WebSocket is not open')` (not a `ConnectionError`
instance), no timeout is awaited, and the pending table is left exactly as
it was (the request is not queued). -/
theorem sendMessage_rejects_on_closed_socket (s : ClientState)
    (m : HPKVRequestMessage) (now : Nat)
    (hopen : isWebSocketOpen s = false)
    (hgrant : (throttleRequest s.throttling (now : ℚ)).2 = true)
    (hfresh : mapHas s.messageHandler.messageMap
      (getNextMessageId s.messageHandler.messageId).1 = false) :
    (sendMessage s m now).2 =
      SendOutcome.rejectedNow
        { kind := .plainError, message := "WebSocket is not open" } ∧
    (sendMessage s m now).1.messageHandler.messageMap =
      s.messageHandler.messageMap := by
  rcases hth : throttleRequest s.throttling (now : ℚ) with ⟨th, granted⟩
  have hg : granted = true := by rw [hth] at hgrant; exact hgrant
  subst hg
  rcases hid : getNextMessageId s.messageHandler.messageId with ⟨id, counter⟩
  have hfresh' : mapHas s.messageHandler.messageMap id = false := by
    rw [hid] at hfresh; exact hfresh
  have hcm : createMessage s.messageHandler m =
      ({ m with messageId := some id },
        { s.messageHandler with messageId := counter }) := by
    unfold createMessage
    rw [hid]
  unfold sendMessage
  rw [hth]
  dsimp only
  rw [if_neg (by simp)]
  simp only [syncConnectionState_messageHandler, syncConnectionState_ws]
  rw [hcm]
  simp only [Option.getD_some, registerRequest]
  rw [mapSet_of_not_has hfresh']
  rw [if_neg ?hcond]
  case hcond =>
    rintro ⟨-, h2⟩
    have hws : isWebSocketOpen s = true := h2
    rw [hopen] at hws
    cases hws
  unfold cancelRequest
  rw [mapHas_append_singleton, if_pos rfl]
  refine ⟨rfl, ?_⟩
  simp only
  exact mapDelete_append_singleton _ _ _ hfresh'

/-- Witness for C2 (amended) on a never-connected client. -/
theorem sendMessage_rejects_on_closed_socket_witness :
    isWebSocketOpen (mkClient) = false ∧
    (sendMessage (mkClient) { op := .GET, key := "k" } 0).2 =
      SendOutcome.rejectedNow
        { kind := .plainError, message := "WebSocket is not open" } ∧
    (sendMessage (mkClient) { op := .GET, key := "k" } 0).1.messageHandler.messageMap =
      [] := by
  have h := sendMessage_rejects_on_closed_socket (mkClient)
    { op := .GET, key := "k" } 0 rfl
    (by rw [show (mkClient).throttling = mkThrottlingManager none from rfl,
          Nat.cast_zero, throttleRequest_mk_eval])
    (by decide)
  exact ⟨rfl, h.1, h.2⟩

/-- C2 counterexample: on a fresh client that never connected, `get` rejects
with a *plain* `Error` (the `cancel` path runs `reject(new Error(reason))`),
not with a `ConnectionError` as the claim states. -/
theorem clientGet_closed_socket_plain_error :
    (clientGet (mkClient) "k" 0).2 =
      SendOutcome.rejectedNow
        { kind := .plainError, message := "WebSocket is not open" } ∧
    ErrorKind.plainError ≠ ErrorKind.connectionError := by
  constructor
  · unfold clientGet sendMessage
    rw [show (mkClient).throttling = mkThrottlingManager none from rfl,
      Nat.cast_zero, throttleRequest_mk_eval]
    rfl
  · decide

/-! ## C7 — disconnect cancels pending requests -/

/-- C7 (amended): whenever `disconnect()` with default cancellation is called
on a client that still holds a socket object, every request pending at that
moment has its timer cleared and is rejected with
`ConnectionError('Connection closed by client')`, the table is emptied, and
all of that precedes the resolution of the disconnect promise.  (When the
client is already fully disconnected — no socket — `disconnect()` resolves
immediately and the pending table is left untouched.) -/
theorem disconnect_cancels_pending (s : ClientState) (h : s.ws.isSome = true) :
    (disconnect s true).1.messageHandler.messageMap = [] ∧
    (disconnect s true).2 =
      ((s.messageHandler.messageMap.flatMap fun p =>
          [MHEvent.timerCleared p.1,
           MHEvent.rejectedWith p.1 connectionClosedByClient]).map
        DiscEvent.handlerEvent) ++ [DiscEvent.promiseResolved] ∧
    ∀ pr ∈ s.messageHandler.messageMap,
      DiscEvent.handlerEvent (MHEvent.timerCleared pr.1) ∈ (disconnect s true).2 ∧
      DiscEvent.handlerEvent
        (MHEvent.rejectedWith pr.1 connectionClosedByClient) ∈ (disconnect s true).2 := by
  have hmain : (disconnect s true).1.messageHandler.messageMap = [] ∧
      (disconnect s true).2 =
        ((s.messageHandler.messageMap.flatMap fun p =>
            [MHEvent.timerCleared p.1,
             MHEvent.rejectedWith p.1 connectionClosedByClient]).map
          DiscEvent.handlerEvent) ++ [DiscEvent.promiseResolved] := by
    unfold disconnect
    rw [if_neg ?hcond]
    case hcond =>
      rintro ⟨-, h2⟩
      rw [syncConnectionState_ws] at h2
      have h2' : s.ws = none := h2
      rw [h2'] at h
      simp at h
    dsimp only
    rw [if_pos rfl]
    dsimp only [cancelAllRequests]
    simp only [syncConnectionState_messageHandler]
    exact ⟨trivial, trivial⟩
  refine ⟨hmain.1, hmain.2, ?_⟩
  intro pr hpr
  rw [hmain.2]
  constructor <;>
    · apply List.mem_append_left
      rw [List.mem_map]
      refine ⟨_, ?_, rfl⟩
      rw [List.mem_flatMap]
      exact ⟨pr, hpr, by simp⟩

/-- Witness for C7 (amended): a connected client with two pending requests;
`disconnect()` clears and rejects both, in table order, before resolving. -/
theorem disconnect_cancels_pending_witness :
    (ClientState.ws
        { ws := some 1, connectionState := ConnectionState.CONNECTED,
          throttling := mkThrottlingManager none,
          messageHandler :=
            registerRequest (registerRequest {} 1 "1" 0) 2 "2" 0 }).isSome = true ∧
    (disconnect
        { ws := some 1, connectionState := ConnectionState.CONNECTED,
          throttling := mkThrottlingManager none,
          messageHandler :=
            registerRequest (registerRequest {} 1 "1" 0) 2 "2" 0 } true).1.messageHandler.messageMap = [] ∧
    (disconnect
        { ws := some 1, connectionState := ConnectionState.CONNECTED,
          throttling := mkThrottlingManager none,
          messageHandler :=
            registerRequest (registerRequest {} 1 "1" 0) 2 "2" 0 } true).2 =
      [DiscEvent.handlerEvent (MHEvent.timerCleared 1),
       DiscEvent.handlerEvent (MHEvent.rejectedWith 1 connectionClosedByClient),
       DiscEvent.handlerEvent (MHEvent.timerCleared 2),
       DiscEvent.handlerEvent (MHEvent.rejectedWith 2 connectionClosedByClient),
       DiscEvent.promiseResolved] := by
  have h := disconnect_cancels_pending
    { ws := some 1, connectionState := ConnectionState.CONNECTED,
      throttling := mkThrottlingManager none,
      messageHandler := registerRequest (registerRequest {} 1 "1" 0) 2 "2" 0 } rfl
  refine ⟨rfl, h.1, ?_⟩
  rw [h.2.1]
  rfl

/-- C7 counterexample: a client in the fully-disconnected early-return state
(`ws = null`) that still has a pending request (reachable via a prior
`disconnect(false)`).  `disconnect()` with default cancellation resolves
immediately, rejecting nothing and leaving the pending entry in the table —
the claim's universal "every pending request is rejected" fails here. -/
theorem disconnect_skips_pending_when_already_disconnected :
    (disconnect
        { throttling := mkThrottlingManager none,
          messageHandler := registerRequest {} 1 "1" 0 } true).2 =
      [DiscEvent.promiseResolved] ∧
    (disconnect
        { throttling := mkThrottlingManager none,
          messageHandler := registerRequest {} 1 "1" 0 } true).1.messageHandler.messageMap =
      [(1, { timestamp := 0, operation := "1" })] := by
  constructor <;> rfl

/-! ## C1 — the 429 side channel is dead in the canonical wiring -/

/-- C1: the constructor assigns the callback to a property
(`onRateLimitExceededProp`) that `MessageHandler` never reads, instead of
registering it through `onRequestLimitExceeded`; the listener list therefore
stays empty, and handling a matched 429 response rejects the request but
invokes no rate-limit listener — the throttling state is unchanged, i.e.
`ThrottlingManager.notify429` never runs.  This contradicts the claim (and
the SDK's own documentation of the `onRateLimitExceeded` callback). -/
theorem rateLimit429_sideChannel_never_fires :
    (mkClient).messageHandler.onRateLimitExceededProp =
      some RateLimitListener.notify429Listener ∧
    (mkClient).messageHandler.requestLimitExceededListeners = [] ∧
    (clientHandleMessage
        { mkClient with
          messageHandler := registerRequest (mkClient).messageHandler 1 "6" 0 }
        { messageId := some 1, code := some 429, error := some "Rate limit exceeded" }
        0).2.handled = true ∧
    (clientHandleMessage
        { mkClient with
          messageHandler := registerRequest (mkClient).messageHandler 1 "6" 0 }
        { messageId := some 1, code := some 429, error := some "Rate limit exceeded" }
        0).2.events =
      [MHEvent.timerCleared 1,
       MHEvent.rejectedWith 1
         { kind := .hpkvError, message := "Rate limit exceeded", code := some 429 }] ∧
    (clientHandleMessage
        { mkClient with
          messageHandler := registerRequest (mkClient).messageHandler 1 "6" 0 }
        { messageId := some 1, code := some 429, error := some "Rate limit exceeded" }
        0).1.throttling =
      ({ mkClient with
          messageHandler := registerRequest (mkClient).messageHandler 1 "6" 0 } :
        ClientState).throttling := by
  refine ⟨rfl, rfl, rfl, by decide, rfl⟩

/-! ## C4 — handleMessage settlement -/

theorem mapGet_eq_none_of_not_has {t : PendingTable} {k : Nat}
    (h : mapHas t k = false) : mapGet t k = none := by
  unfold mapHas at h
  rcases hg : mapGet t k with - | v
  · rfl
  · rw [hg] at h
    cases h

/-- The error branch of `handleMessage` fires exactly when the frame carries
an `error` field or a status code other than 200. -/
theorem errBranch_iff (m : HPKVResponse) :
    ((isErrorResponse m ||
        (match m.code with
         | some c => decide (c ≠ 200)
         | none => false)) = true) ↔
      (m.error.isSome = true ∨ ∃ c, m.code = some c ∧ c ≠ 200) := by
  unfold isErrorResponse
  rcases m.code with - | c <;> rcases m.error with - | e <;> simp

/-- Shape of `handleMessage` on a matched response: the entry is removed,
the timer cleared, and the settlement is a rejection (error branch) or a
resolution with the full payload. -/
theorem handleMessage_matched (s : MessageHandlerState) (m : HPKVResponse)
    (mid : Nat) (hmid : m.messageId = some mid)
    (hnotif : isNotification m = false) (hne : mid ≠ 0)
    (hhas : mapHas s.messageMap mid = true) :
    handleMessage s m =
      if isErrorResponse m ||
          (match m.code with
           | some c => decide (c ≠ 200)
           | none => false) then
        ⟨true, { s with messageMap := mapDelete s.messageMap mid },
         [MHEvent.timerCleared mid] ++
           (if m.code = some 429 then
             s.requestLimitExceededListeners.map MHEvent.limitListenerInvoked
           else []) ++
           [.rejectedWith mid
             { kind := .hpkvError,
               message :=
                 if isErrorResponse m then m.error.getD ""
                 else jsOrStr m.message "Unknown error",
               code := some (jsOrNat m.code 500) }]⟩
      else
        ⟨true, { s with messageMap := mapDelete s.messageMap mid },
         [.timerCleared mid, .resolved mid m]⟩ := by
  obtain ⟨req, hreq⟩ := Option.isSome_iff_exists.mp hhas
  unfold handleMessage
  rw [hnotif]
  simp only [Bool.false_eq_true, if_false, hmid]
  rw [if_neg hne, hreq]

/-- C4 (amended): a notification-shaped frame, a frame without a truthy
correlation id, or one whose id is not pending is ignored and leaves the
handler state unchanged.  On a match the timer is cleared and the entry
removed; then: if the frame has no `error` field and its `code` is 200 or
absent, the pending promise resolves with the full payload; if it has an
`error` field or a `code` other than 200, the promise rejects with an
`HPKVError` whose message is the frame's `error` text (empty when absent)
and whose code is the frame's `code` when nonzero, 500 otherwise — with the
429 listeners additionally notified first when `code` is 429. -/
theorem handleMessage_settlement_spec (s : MessageHandlerState) (m : HPKVResponse) :
    (isNotification m = true → handleMessage s m = ⟨false, s, []⟩) ∧
    (isNotification m = false → m.messageId = none →
      handleMessage s m = ⟨false, s, []⟩) ∧
    (∀ mid, isNotification m = false → m.messageId = some mid →
      (mid = 0 ∨ mapHas s.messageMap mid = false) →
      handleMessage s m = ⟨false, s, []⟩) ∧
    (∀ mid, isNotification m = false → m.messageId = some mid → mid ≠ 0 →
      mapHas s.messageMap mid = true →
      (handleMessage s m).handled = true ∧
      (handleMessage s m).state.messageMap = mapDelete s.messageMap mid ∧
      ((m.error.isSome = false ∧ (m.code = none ∨ m.code = some 200)) →
        (handleMessage s m).events = [.timerCleared mid, .resolved mid m]) ∧
      ((m.error.isSome = true ∨ (∃ c, m.code = some c ∧ c ≠ 200)) →
        (handleMessage s m).events =
          [MHEvent.timerCleared mid] ++
            (if m.code = some 429 then
              s.requestLimitExceededListeners.map MHEvent.limitListenerInvoked
            else []) ++
            [.rejectedWith mid
              { kind := .hpkvError, message := m.error.getD "",
                code := some (jsOrNat m.code 500) }])) := by
  refine ⟨?_, ?_, ?_, ?_⟩
  · intro h
    unfold handleMessage
    rw [h]
    rfl
  · intro hnotif hnone
    unfold handleMessage
    rw [hnotif]
    simp only [Bool.false_eq_true, if_false, hnone]
  · intro mid hnotif hmid hor
    unfold handleMessage
    rw [hnotif]
    simp only [Bool.false_eq_true, if_false, hmid]
    rcases hor with h0 | hnot
    · rw [if_pos h0]
    · rcases Nat.eq_zero_or_pos mid with h0 | hpos
      · rw [if_pos h0]
      · rw [if_neg (Nat.pos_iff_ne_zero.mp hpos),
          mapGet_eq_none_of_not_has hnot]
  · intro mid hnotif hmid hne hhas
    have hm := handleMessage_matched s m mid hmid hnotif hne hhas
    by_cases hE : (isErrorResponse m ||
        (match m.code with
         | some c => decide (c ≠ 200)
         | none => false)) = true
    · rw [hm, if_pos hE]
      refine ⟨rfl, rfl, ?_, ?_⟩
      · rintro ⟨he, hc⟩
        exfalso
        rcases (errBranch_iff m).1 hE with h | ⟨c, hc', hcne⟩
        · rw [he] at h; cases h
        · rcases hc with h | h <;> rw [h] at hc'
          · cases hc'
          · cases hc'
            exact hcne rfl
      · intro hor
        have hisErr : isErrorResponse m = true := by
          unfold isErrorResponse
          rcases hor with h | ⟨c, hc, hcne⟩
          · rw [h]
            simp
          · rw [hc]
            simp [hcne]
        rw [hisErr]
        simp
    · rw [hm, if_neg hE]
      have hnE := (errBranch_iff m).not.1 hE
      push_neg at hnE
      refine ⟨rfl, rfl, fun _ => rfl, ?_⟩
      intro hor
      exfalso
      rcases hor with h | ⟨c, hc, hcne⟩
      · exact absurd h (by simpa using hnE.1)
      · exact hcne (hnE.2 c hc)

/-- Witness for C4 (amended): a pending request 1 whose response carries
code 404 and an error text is rejected with `HPKVError('not found', 404)`;
a second handler with pending id 1 resolving on a bare `code:200` frame. -/
theorem handleMessage_settlement_spec_witness :
    (mapHas (MessageHandlerState.messageMap
        { messageMap := [(1, { timestamp := 0, operation := "1" })] }) 1 = true) ∧
    (handleMessage { messageMap := [(1, { timestamp := 0, operation := "1" })] }
        { messageId := some 1, code := some 404, error := some "not found" }).events =
      [MHEvent.timerCleared 1,
       MHEvent.rejectedWith 1
         { kind := .hpkvError, message := "not found", code := some 404 }] ∧
    (handleMessage { messageMap := [(1, { timestamp := 0, operation := "1" })] }
        { messageId := some 1, code := some 200 }).events =
      [MHEvent.timerCleared 1,
       MHEvent.resolved 1 { messageId := some 1, code := some 200 }] := by
  refine ⟨by decide, ?_, ?_⟩
  · have h := ((handleMessage_settlement_spec
        { messageMap := [(1, { timestamp := 0, operation := "1" })] }
        { messageId := some 1, code := some 404, error := some "not found" }).2.2.2
      1 rfl rfl (by decide) (by decide)).2.2.2
      (Or.inl rfl)
    rw [h]
    rfl
  · have h := ((handleMessage_settlement_spec
        { messageMap := [(1, { timestamp := 0, operation := "1" })] }
        { messageId := some 1, code := some 200 }).2.2.2
      1 rfl rfl (by decide) (by decide)).2.2.1
      ⟨rfl, Or.inr rfl⟩
    rw [h]

/-- C4 counterexample: a matched response with status code 200 *and* an
`error` field.  The claim says a 200-coded response resolves; the code's
`isErrorResponse` check (`'error' in message`) rejects it instead, with an
`HPKVError` carrying code 200. -/
theorem handleMessage_code200_with_error_rejects :
    (handleMessage { messageMap := [(1, { timestamp := 0, operation := "1" })] }
        { messageId := some 1, code := some 200, error := some "boom" }).handled = true ∧
    (handleMessage { messageMap := [(1, { timestamp := 0, operation := "1" })] }
        { messageId := some 1, code := some 200, error := some "boom" }).events =
      [MHEvent.timerCleared 1,
       MHEvent.rejectedWith 1
         { kind := .hpkvError, message := "boom", code := some 200 }] ∧
    ((handleMessage { messageMap := [(1, { timestamp := 0, operation := "1" })] }
        { messageId := some 1, code := some 200, error := some "boom" }).events.all
      fun e =>
        match e with
        | .resolved _ _ => false
        | _ => true) = true := by
  refine ⟨rfl, by decide, by decide⟩

/-! ## C8 — correlation-id uniqueness and routing -/

theorem MAX_SAFE_INTEGER_eq : MAX_SAFE_INTEGER = 9007199254740991 := by
  norm_num [MAX_SAFE_INTEGER]

theorem idsFrom_no_wrap (N : Nat) : ∀ c, c + N ≤ MAX_SAFE_INTEGER - 1000 →
    idsFrom c N = (List.range N).map (fun i => c + i + 1) := by
  induction N with
  | zero => intro c _; rfl
  | succ n ih =>
    intro c h
    have hc : ¬ MAX_SAFE_INTEGER - 1000 ≤ c := by omega
    have hg : getNextMessageId c = (c + 1, c + 1) := by
      unfold getNextMessageId
      rw [if_neg hc]
    rw [idsFrom, hg]
    dsimp only
    rw [ih (c + 1) (by omega), List.range_succ_eq_map, List.map_cons, List.map_map]
    congr 1
    apply List.map_congr_left
    intro a _
    simp only [Function.comp_apply, Nat.succ_eq_add_one]
    omega

/-- The settlement ids fired by a matched `handleMessage` are exactly the
matched correlation id. -/
theorem settledIds_matched (s : MessageHandlerState) (m : HPKVResponse)
    (mid : Nat) (hmid : m.messageId = some mid)
    (hnotif : isNotification m = false) (hne : mid ≠ 0)
    (hhas : mapHas s.messageMap mid = true) :
    settledIds (handleMessage s m).events = [mid] := by
  rw [handleMessage_matched s m mid hmid hnotif hne hhas]
  by_cases hE : (isErrorResponse m ||
      (match m.code with
       | some c => decide (c ≠ 200)
       | none => false)) = true
  · rw [if_pos hE]
    dsimp only
    rw [settledIds_append]
    split_ifs with h429 <;>
      simp [settledIds_append, settledIds_limitList, settledIds]
  · rw [if_neg hE]
    rfl

/-- C8: correlation ids are positive, strictly increasing while no wrap
occurs, stay strictly below the safe-integer bound, reset to 1 when the
counter reaches `MAX_SAFE_INTEGER - 1000`, are pairwise distinct over any
wrap-free run, and `handleMessage` routes a response to exactly the pending
entry carrying the matching id, removing only that entry. -/
theorem correlation_ids_spec :
    (∀ mid, 0 < (getNextMessageId mid).1) ∧
    (∀ mid, (getNextMessageId mid).1 < MAX_SAFE_INTEGER) ∧
    (∀ mid, MAX_SAFE_INTEGER - 1000 ≤ mid → (getNextMessageId mid).1 = 1) ∧
    (∀ c N, c + N ≤ MAX_SAFE_INTEGER - 1000 →
      idsFrom c N = (List.range N).map (fun i => c + i + 1) ∧
      (idsFrom c N).Pairwise (· < ·) ∧ (idsFrom c N).Nodup) ∧
    (∀ (s : MessageHandlerState) (m : HPKVResponse) (mid : Nat),
      m.messageId = some mid → isNotification m = false → mid ≠ 0 →
      mapHas s.messageMap mid = true →
      (handleMessage s m).handled = true ∧
      settledIds (handleMessage s m).events = [mid] ∧
      (handleMessage s m).state.messageMap = mapDelete s.messageMap mid) := by
  have hpos : ∀ mid, 0 < (getNextMessageId mid).1 := by
    intro mid
    unfold getNextMessageId
    dsimp only
    split_ifs <;> omega
  have hlt : ∀ mid, (getNextMessageId mid).1 < MAX_SAFE_INTEGER := by
    intro mid
    unfold getNextMessageId
    dsimp only
    rw [MAX_SAFE_INTEGER_eq] at *
    split_ifs with hc <;> omega
  have hwrap : ∀ mid, MAX_SAFE_INTEGER - 1000 ≤ mid →
      (getNextMessageId mid).1 = 1 := by
    intro mid h
    unfold getNextMessageId
    dsimp only
    rw [if_pos h]
  refine ⟨hpos, hlt, hwrap, ?_, ?_⟩
  · intro c N h
    have hmap := idsFrom_no_wrap N c h
    have hpair : (idsFrom c N).Pairwise (· < ·) := by
      rw [hmap, List.pairwise_map]
      exact (List.pairwise_lt_range N).imp (fun hab => by omega)
    exact ⟨hmap, hpair, hpair.imp (fun hab => Nat.ne_of_lt hab)⟩
  · intro s m mid hmid hnotif hne hhas
    have hm := handleMessage_matched s m mid hmid hnotif hne hhas
    refine ⟨?_, settledIds_matched s m mid hmid hnotif hne hhas, ?_⟩ <;>
      · rw [hm]
        split_ifs <;> rfl

/-- Witness for C8: the first three ids from a fresh counter are `[1,2,3]`
(distinct and increasing), the counter wraps to 1 at the threshold, and a
response tagged 2 settles exactly entry 2 of a two-entry table. -/
theorem correlation_ids_spec_witness :
    0 < (getNextMessageId 5).1 ∧
    (0 + 3 ≤ MAX_SAFE_INTEGER - 1000 ∧ idsFrom 0 3 = [1, 2, 3] ∧
      (idsFrom 0 3).Nodup) ∧
    (MAX_SAFE_INTEGER - 1000 ≤ MAX_SAFE_INTEGER - 1000 ∧
      (getNextMessageId (MAX_SAFE_INTEGER - 1000)).1 = 1) ∧
    (mapHas [(1, { timestamp := 0, operation := "1" }),
        (2, { timestamp := 0, operation := "2" })] 2 = true ∧
      settledIds (handleMessage
          { messageMap := [(1, { timestamp := 0, operation := "1" }),
              (2, { timestamp := 0, operation := "2" })] }
          { messageId := some 2, code := some 200 }).events = [2] ∧
      (handleMessage
          { messageMap := [(1, { timestamp := 0, operation := "1" }),
              (2, { timestamp := 0, operation := "2" })] }
          { messageId := some 2, code := some 200 }).state.messageMap =
        [(1, { timestamp := 0, operation := "1" })]) := by
  have h := correlation_ids_spec
  have hb : (0 : Nat) + 3 ≤ MAX_SAFE_INTEGER - 1000 := by
    rw [MAX_SAFE_INTEGER_eq]
    omega
  have hids := h.2.2.2.1 0 3 hb
  have hroute := h.2.2.2.2
    { messageMap := [(1, { timestamp := 0, operation := "1" }),
        (2, { timestamp := 0, operation := "2" })] }
    { messageId := some 2, code := some 200 } 2 rfl rfl (by decide) (by decide)
  refine ⟨h.1 5, ⟨hb, ?_, hids.2.2⟩, ⟨le_refl _, h.2.2.1 _ (le_refl _)⟩,
    ⟨by decide, hroute.2.1, ?_⟩⟩
  · rw [hids.1]
    rfl
  · rw [hroute.2.2]
    rfl

/-! ## C9 — at-most-once settlement -/

theorem settledIds_sweepList (t : PendingTable)
    (err : Nat × PendingRequest → JsError) :
    settledIds (t.flatMap fun p =>
        [.timerCleared p.1, .rejectedWith p.1 (err p)]) = t.map Prod.fst := by
  induction t with
  | nil => rfl
  | cons p rest ih =>
    simp only [List.flatMap_cons, List.map_cons]
    rw [settledIds_append, ih]
    rfl

theorem filter_keys_disjoint {t : PendingTable} {P : Nat × PendingRequest → Bool}
    (h : (t.map Prod.fst).Nodup) {i : Nat}
    (h1 : i ∈ (t.filter (fun p => ¬ P p)).map Prod.fst) :
    i ∉ (t.filter P).map Prod.fst := by
  intro h2
  simp only [List.mem_map, List.mem_filter] at h1 h2
  obtain ⟨p, ⟨hp, hPp⟩, hpi⟩ := h1
  obtain ⟨q, ⟨hq, hPq⟩, hqi⟩ := h2
  have hpq : p = q :=
    List.inj_on_of_nodup_map h hp hq (by rw [hpi, hqi])
  rw [hpq, hPq] at hPp
  simp at hPp

/-- Every `handleMessage` call either ignores the frame (returning the state
untouched with no events) or settles exactly the matched id, removing it. -/
theorem handleMessage_cases (s : MessageHandlerState) (m : HPKVResponse) :
    handleMessage s m = ⟨false, s, []⟩ ∨
    ∃ mid, mapHas s.messageMap mid = true ∧
      (handleMessage s m).state.messageMap = mapDelete s.messageMap mid ∧
      settledIds (handleMessage s m).events = [mid] := by
  by_cases hn : isNotification m = true
  · left
    unfold handleMessage
    rw [hn]
    rfl
  · have hn' : isNotification m = false := by simpa using hn
    rcases hmid : m.messageId with - | mid
    · left
      unfold handleMessage
      rw [hn']
      simp only [Bool.false_eq_true, if_false, hmid]
    · by_cases h0 : mid = 0
      · left
        unfold handleMessage
        rw [hn']
        simp only [Bool.false_eq_true, if_false, hmid]
        rw [if_pos h0]
      · by_cases hhas : mapHas s.messageMap mid = true
        · right
          refine ⟨mid, hhas, ?_, settledIds_matched s m mid hmid hn' h0 hhas⟩
          rw [handleMessage_matched s m mid hmid hn' h0 hhas]
          split_ifs <;> rfl
        · left
          have hhas' : mapHas s.messageMap mid = false := by simpa using hhas
          unfold handleMessage
          rw [hn']
          simp only [Bool.false_eq_true, if_false, hmid]
          rw [if_neg h0, mapGet_eq_none_of_not_has hhas']

/-- One settlement-path step settles only currently-registered ids, each at
most once, and removes every id it settles; registered keys only shrink and
stay duplicate-free. -/
theorem settleStep_spec (s : MessageHandlerState) (ev : SettleEvent)
    (h : (s.messageMap.map Prod.fst).Nodup) :
    (settledIds (settleStep s ev).2).Nodup ∧
    (∀ i ∈ settledIds (settleStep s ev).2, i ∈ s.messageMap.map Prod.fst) ∧
    (∀ i ∈ (settleStep s ev).1.messageMap.map Prod.fst,
      i ∈ s.messageMap.map Prod.fst ∧ i ∉ settledIds (settleStep s ev).2) ∧
    ((settleStep s ev).1.messageMap.map Prod.fst).Nodup := by
  cases ev with
  | response m =>
    rcases handleMessage_cases s m with hig | ⟨mid, hhas, hmap, hsett⟩
    · have h1 : (settleStep s (.response m)).1 = s := by
        simp only [settleStep, hig]
      have h2 : (settleStep s (.response m)).2 = [] := by
        simp only [settleStep, hig]
      rw [h1, h2]
      exact ⟨List.nodup_nil, by simp [settledIds],
        fun i hi => ⟨hi, by simp [settledIds]⟩, h⟩
    · have h1 : (settleStep s (.response m)).1 = (handleMessage s m).state := rfl
      have h2 : (settleStep s (.response m)).2 = (handleMessage s m).events := rfl
      rw [h1, h2, hmap, hsett]
      refine ⟨List.nodup_singleton mid, ?_, ?_, nodup_keys_mapDelete mid h⟩
      · intro i hi
        rw [List.mem_singleton] at hi
        subst hi
        exact mem_keys_of_mapHas hhas
      · intro i hi
        obtain ⟨hmem, hne⟩ := mem_keys_mapDelete hi
        exact ⟨hmem, by simpa using hne⟩
  | timer mid timeoutMs operation =>
    have hstep : settleStep s (SettleEvent.timer mid timeoutMs operation) =
        timerFire s mid timeoutMs operation := rfl
    rw [hstep]
    unfold timerFire
    split_ifs with hhas
    · dsimp only
      have hset : settledIds [MHEvent.rejectedWith mid
          { kind := .timeoutError,
            message := "Operation timed out after " ++
              toString (actualTimeout s timeoutMs) ++ "ms: " ++ operation }] =
          [mid] := rfl
      rw [hset]
      refine ⟨List.nodup_singleton mid, ?_, ?_, nodup_keys_mapDelete mid h⟩
      · intro i hi
        rw [List.mem_singleton] at hi
        subst hi
        exact mem_keys_of_mapHas hhas
      · intro i hi
        obtain ⟨hmem, hne⟩ := mem_keys_mapDelete hi
        exact ⟨hmem, by simpa using hne⟩
    · dsimp only
      exact ⟨List.nodup_nil, by simp [settledIds],
        fun i hi => ⟨hi, by simp [settledIds]⟩, h⟩
  | cancelEv mid reason =>
    have hstep : settleStep s (SettleEvent.cancelEv mid reason) =
        cancelRequest s mid reason := rfl
    rw [hstep]
    unfold cancelRequest
    split_ifs with hhas
    · dsimp only
      have hset : settledIds [MHEvent.timerCleared mid,
          MHEvent.rejectedWith mid { kind := .plainError, message := reason }] =
          [mid] := rfl
      rw [hset]
      refine ⟨List.nodup_singleton mid, ?_, ?_, nodup_keys_mapDelete mid h⟩
      · intro i hi
        rw [List.mem_singleton] at hi
        subst hi
        exact mem_keys_of_mapHas hhas
      · intro i hi
        obtain ⟨hmem, hne⟩ := mem_keys_mapDelete hi
        exact ⟨hmem, by simpa using hne⟩
    · dsimp only
      exact ⟨List.nodup_nil, by simp [settledIds],
        fun i hi => ⟨hi, by simp [settledIds]⟩, h⟩
  | cancelAll err =>
    have h2 : (settleStep s (.cancelAll err)).2 =
        s.messageMap.flatMap fun p =>
          [.timerCleared p.1, .rejectedWith p.1 err] := rfl
    have h1 : (settleStep s (.cancelAll err)).1.messageMap = [] := rfl
    rw [h1, h2, settledIds_cancelList]
    exact ⟨h, fun i hi => hi, by simp, List.nodup_nil⟩
  | sweep now =>
    have h1 : (settleStep s (.sweep now)).1.messageMap =
        s.messageMap.filter (fun p => ¬ isStale s now p) := rfl
    have h2 : settledIds (settleStep s (.sweep now)).2 =
        (s.messageMap.filter (isStale s now)).map Prod.fst := by
      have : (settleStep s (.sweep now)).2 =
          (s.messageMap.filter (isStale s now)).flatMap fun p =>
            [.timerCleared p.1,
             .rejectedWith p.1
               { kind := .timeoutError,
                 message := "Request " ++ toString p.1 ++ " (" ++
                   p.2.operation ++ ") timed out after " ++
                   toString (now - p.2.timestamp) ++ "ms" }] := rfl
      rw [this, settledIds_sweepList]
    rw [h1, h2]
    refine ⟨((List.filter_sublist _).map Prod.fst).nodup h, ?_, ?_,
      ((List.filter_sublist _).map Prod.fst).nodup h⟩
    · intro i hi
      exact ((List.filter_sublist s.messageMap).map Prod.fst).subset hi
    · intro i hi
      refine ⟨((List.filter_sublist s.messageMap).map Prod.fst).subset hi, ?_⟩
      exact filter_keys_disjoint h hi

/-- Cumulative version over a trace of settlement events. -/
theorem settleRun_spec (evs : List SettleEvent) : ∀ (s : MessageHandlerState),
    (s.messageMap.map Prod.fst).Nodup →
    (settledIds (settleRun s evs).2).Nodup ∧
    (∀ i ∈ settledIds (settleRun s evs).2, i ∈ s.messageMap.map Prod.fst) ∧
    (∀ i ∈ (settleRun s evs).1.messageMap.map Prod.fst,
      i ∈ s.messageMap.map Prod.fst ∧ i ∉ settledIds (settleRun s evs).2) ∧
    ((settleRun s evs).1.messageMap.map Prod.fst).Nodup := by
  induction evs with
  | nil =>
    intro s h
    exact ⟨List.nodup_nil, by simp [settleRun, settledIds],
      fun i hi => ⟨hi, by simp [settleRun, settledIds]⟩, h⟩
  | cons ev rest ih =>
    intro s h
    obtain ⟨hn1, hn2, hn3, hn4⟩ := settleStep_spec s ev h
    obtain ⟨ih1, ih2, ih3, ih4⟩ := ih (settleStep s ev).1 hn4
    have hgoal : settleRun s (ev :: rest) =
        ((settleRun (settleStep s ev).1 rest).1,
          (settleStep s ev).2 ++ (settleRun (settleStep s ev).1 rest).2) := by
      rw [settleRun]
    rw [hgoal]
    dsimp only
    rw [settledIds_append]
    refine ⟨?_, ?_, ?_, ih4⟩
    · refine List.Nodup.append hn1 ih1 ?_
      intro a ha1 ha2
      exact (hn3 a (ih2 a ha2)).2 ha1
    · intro i hi
      rcases List.mem_append.mp hi with h1 | h2
      · exact hn2 i h1
      · exact (hn3 i (ih2 i h2)).1
    · intro i hi
      obtain ⟨hi1, hi2⟩ := ih3 i hi
      obtain ⟨hk, hns⟩ := hn3 i hi1
      refine ⟨hk, ?_⟩
      rw [List.mem_append]
      rintro (h1 | h2)
      · exact hns h1
      · exact hi2 h2

/-- C9: over any sequence of settlement-path events (matched responses,
timer firings, cancels, bulk cancellation, stale sweeps) applied to a
duplicate-free pending table, every settlement id refers to a registration
present when its step fired, and no id is settled twice — each registration
is settled at most once, because every settling path removes the entry and
the timer/cancel callbacks are guarded by a table-membership check. -/
theorem settlement_at_most_once (s : MessageHandlerState)
    (evs : List SettleEvent) (h : (s.messageMap.map Prod.fst).Nodup) :
    (settledIds (settleRun s evs).2).Nodup ∧
    (∀ i ∈ settledIds (settleRun s evs).2, i ∈ s.messageMap.map Prod.fst) := by
  obtain ⟨h1, h2, -, -⟩ := settleRun_spec evs s h
  exact ⟨h1, h2⟩

/-- Witness for C9: two pending requests; a response for 1 arrives twice,
then its timer fires, then everything is bulk-cancelled — id 1 is settled
exactly once and id 2 exactly once. -/
theorem settlement_at_most_once_witness :
    (((MessageHandlerState.messageMap
        { messageMap := [(1, { timestamp := 0, operation := "1" }),
            (2, { timestamp := 0, operation := "2" })] }).map Prod.fst).Nodup) ∧
    settledIds (settleRun
        { messageMap := [(1, { timestamp := 0, operation := "1" }),
            (2, { timestamp := 0, operation := "2" })] }
        [.response { messageId := some 1, code := some 200 },
         .response { messageId := some 1, code := some 200 },
         .timer 1 none "1",
         .cancelAll { kind := .connectionError, message := "closed" }]).2 =
      [1, 2] ∧
    (settledIds (settleRun
        { messageMap := [(1, { timestamp := 0, operation := "1" }),
            (2, { timestamp := 0, operation := "2" })] }
        [.response { messageId := some 1, code := some 200 },
         .response { messageId := some 1, code := some 200 },
         .timer 1 none "1",
         .cancelAll { kind := .connectionError, message := "closed" }]).2).Nodup := by
  refine ⟨by decide, by decide, ?_⟩
  exact (settlement_at_most_once
    { messageMap := [(1, { timestamp := 0, operation := "1" }),
        (2, { timestamp := 0, operation := "2" })] }
    [.response { messageId := some 1, code := some 200 },
     .response { messageId := some 1, code := some 200 },
     .timer 1 none "1",
     .cancelAll { kind := .connectionError, message := "closed" }] (by decide)).1

end HPKV
